import Mathlib

/-
  Verification development for the gymtracker repository.

  The front-end source (static/tracker.js) is embedded shallowly: JavaScript
  strings become Lean `String`, JavaScript numbers become `ℚ` with an explicit
  constructor for the NaN / non-finite outcomes of `Number(...)`, and nullable
  values become `Option`. Server-side pieces that are not part of the sources
  (the Flask app) are modelled from the specification and marked as such in
  their doc comments.
-/

/-- Model of a JavaScript value sitting in a numeric field of a JSON row.
`jnull` is the JSON value null (JavaScript `Number(null) = 0`), `jnan` is any
value whose `Number(...)` conversion is not finite (`undefined`, a non-numeric
string, and so on), `jnum q` is an ordinary finite number. -/
inductive JVal where
  | jnull : JVal
  | jnan : JVal
  | jnum : ℚ → JVal
deriving DecidableEq

/-- JavaScript `Number(v)` followed by the `Number.isFinite` test:
`none` means the value is not a finite number. `Number(null)` is `0`. -/
def jsNumber : JVal → Option ℚ
  | .jnull => some 0
  | .jnan => none
  | .jnum q => some q

/-- JavaScript `String.prototype.toLowerCase` restricted to the ASCII range,
written on the underlying character list so the kernel can evaluate it. -/
def jsToLower (s : String) : String := ⟨s.data.map Char.toLower⟩

/-- JavaScript `String.prototype.trim`: strip whitespace from both ends. -/
def jsTrim (s : String) : String :=
  ⟨((s.data.dropWhile Char.isWhitespace).reverse.dropWhile Char.isWhitespace).reverse⟩

/-- One check-in row as it appears in the import preview payload
(`static/tracker.js`): a date plus numeric fields that may be null or absent. -/
structure CheckinRow where
  log_date : String
  sleep_hours : JVal
  steps : JVal
  weight_kg : JVal
  waist_cm : JVal
  hip_cm : JVal
deriving DecidableEq

/-- From `computeWHR` in static/tracker.js:
`const w = Number(r.waist_cm); const h = Number(r.hip_cm);`
`if (!Number.isFinite(w) || !Number.isFinite(h) || h <= 0) return "—";`
`return fmt3(w / h);`
`none` stands for the em-dash placeholder and `some q` for `fmt3 q`
(`fmt3` itself is display formatting of the exact ratio). -/
def computeWHR (r : CheckinRow) : Option ℚ :=
  match jsNumber r.waist_cm, jsNumber r.hip_cm with
  | some w, some h => if h ≤ 0 then none else some (w / h)
  | _, _ => none

/-- One row of the check-in import preview returned by the server:
`{row_number, status, row}` as consumed by `renderImportPreview` and
`applyDietImport` in static/tracker.js. -/
structure PreviewRow where
  row_number : Nat
  status : String
  row : CheckinRow
deriving DecidableEq

/-- From `renderImportPreview` in static/tracker.js:
`rows.filter((r) => String(r?.status || "").toLowerCase() === "valid").length`. -/
def importValidCount (rows : List PreviewRow) : Nat :=
  (rows.filter (fun r => jsToLower r.status == "valid")).length

/-- From `renderImportPreview` in static/tracker.js:
`importApplyBtn.disabled = validCount === 0`. -/
def importApplyDisabled (rows : List PreviewRow) : Bool :=
  importValidCount rows == 0

/-- From `applyDietImport` in static/tracker.js: the payload posted to
`/api/diet/import/apply` is
`importPreviewRows.filter((r) => String(r?.status || "").toLowerCase() === "valid")`
`.map((r) => ({row_number: r.row_number, row: r.row}))`. -/
def applyDietImportPayload (rows : List PreviewRow) : List (Nat × CheckinRow) :=
  (rows.filter (fun r => jsToLower r.status == "valid")).map
    (fun r => (r.row_number, r.row))

/-- The visual state classes `drawKpiDelta` can put on a KPI delta node. -/
inductive KpiDeltaState where
  | muted : KpiDeltaState
  | equal : KpiDeltaState
  | better : KpiDeltaState
  | worse : KpiDeltaState
deriving DecidableEq

/-- From `drawKpiDelta` in static/tracker.js. The `delta` argument is `none`
when the raw delta is null or `Number(delta)` is NaN, and `some value`
otherwise. The function branches: muted state for `none`, equal state when
`Math.abs(value) <= stableEps`, otherwise better or worse according to
`preferLower`. -/
def drawKpiDelta (delta : Option ℚ) (preferLower : Bool) (stableEps : ℚ) :
    KpiDeltaState :=
  match delta with
  | none => .muted
  | some value =>
    if |value| ≤ stableEps then .equal
    else
      let upIsGood := !preferLower
      let isGood := if 0 < value then upIsGood else !upIsGood
      if isGood then .better else .worse

/-- From `normalizeSessionType` in static/tracker.js:
`const type = String(v || "").trim().toLowerCase();`
`if (type === "mixta") return "pesas";`
`if (type === "pesas") return "pesas";`
`return "clase";` -/
def normalizeSessionType (v : String) : String :=
  let t := jsToLower (jsTrim v)
  if t = "mixta" then "pesas"
  else if t = "pesas" then "pesas"
  else "clase"

/-- From `scoreMatches` in static/tracker.js:
`Math.abs(Number(value) - Number(expected)) < 0.001`. -/
def scoreMatches (value expected : ℚ) : Bool :=
  |value - expected| < 1 / 1000

/-- A label/tone pair as produced by `planPillFromAdherenceScore`. -/
structure PlanPill where
  label : String
  tone : String
deriving DecidableEq

/-- From `planPillFromAdherenceScore` in static/tracker.js. The score is
`none` when the raw value is null or the empty string. -/
def planPillFromAdherenceScore (scoreValue : Option ℚ) (hasPlan : Bool) :
    PlanPill :=
  if !hasPlan then ⟨"Sin plan", "warn"⟩
  else
    match scoreValue with
    | none => ⟨"Pendiente", "warn"⟩
    | some q =>
      if scoreMatches q 1 then ⟨"Cumplida", "good"⟩
      else if scoreMatches q (1 / 2) then ⟨"Parcial", "warn"⟩
      else if scoreMatches q 0 then ⟨"No cumplida", "bad"⟩
      else ⟨"Pendiente", "warn"⟩

/-- Restatement of claim C6 in its own words, kept separate from the
source-derived `planPillFromAdherenceScore` so the two can be compared:
no plan gives "Sin plan" regardless of the score; otherwise a score within
0.001 of 1, 0.5, 0 gives "Cumplida", "Parcial", "No cumplida"; a null score
or one matching none of the three gives "Pendiente". -/
def planPillLabelClaim (scoreValue : Option ℚ) (hasPlan : Bool) : String :=
  if hasPlan = false then "Sin plan"
  else
    match scoreValue with
    | some q =>
      if |q - 1| < 1 / 1000 then "Cumplida"
      else if |q - 1 / 2| < 1 / 1000 then "Parcial"
      else if |q - 0| < 1 / 1000 then "No cumplida"
      else "Pendiente"
    | none => "Pendiente"

/-- Modelled from the spec: the adherence history window handed to the UI.
The server code (app.py) is not under src/; per the spec, `getHistory`
returns every scored day in the window, so the window is a list with one
entry per calendar day, `some t` when that day has a non-null total score
`t` and `none` when it is unscored, and the item list is the scored days. -/
def historyItems (window : List (Option ℚ)) : List ℚ :=
  window.filterMap id

/-- Modelled from the spec: `total_days` is the calendar length of the
history window, independent of which days carry a score. -/
def historyTotalDays (window : List (Option ℚ)) : Nat :=
  window.length

/-- From `renderPlanAdherenceHistory` in static/tracker.js: the item scores
are collected (`items.map((item) => Number(item?.total_score))` filtered to
finite numbers, here all scored totals) and the period average is their
arithmetic mean, or the em-dash placeholder (`none`) when no item exists:
`scoredValues.length ? scoredValues.reduce((acc, num) => acc + num, 0) / scoredValues.length : "—"`. -/
def periodAvgOfItems (items : List ℚ) : Option ℚ :=
  if items.isEmpty then none
  else some (items.sum / (items.length : ℚ))

/-- The full pipeline behind the displayed adherence mean: the modelled
server window feeding the front-end average of `renderPlanAdherenceHistory`. -/
def renderPeriodAvg (window : List (Option ℚ)) : Option ℚ :=
  periodAvgOfItems (historyItems window)

/-- One data row of a workout-plan CSV as the reconciler sees it: the date,
the raw session type cell, and the exercise slot data carried by the row. -/
structure WorkoutCsvRow where
  log_date : String
  session_type : String
  exercises : List String
deriving DecidableEq

/-- One persisted planned workout session. -/
structure PlanWorkoutSession where
  log_date : String
  plan_session_id : String
  session_type : String
  exercises : List String
deriving DecidableEq

/-- Two-digit zero padding, `String(n).padStart(2, "0")`. -/
def zeroPad2 (n : Nat) : String :=
  if n < 10 then "0" ++ toString n else toString n

/-- Modelled from the spec: the import validator case-normalizes
`session_type` and coerces the legacy value `mixta` to `pesas` (with a
warning); `clase` and `pesas` pass through. The server validator itself
(app.py) is not under src/. -/
def specNormalizeSessionType (v : String) : String :=
  let t := jsToLower (jsTrim v)
  if t = "mixta" then "pesas" else t

/-- Modelled from the spec: the workout plan reconciler (app.py is not under
src/) walks the accepted CSV rows in file order; for each row its position
within its date is the number of earlier rows sharing the date, and
`plan_session_id = "S" + zeroPad(positionWithinDate + 1, 2)`. When the
session type is `clase` the exercise slots are dropped and the session is
persisted with an empty exercise list. `prev` accumulates the rows already
consumed, preserving file order. -/
def reconcileWorkoutAux (prev : List WorkoutCsvRow) :
    List WorkoutCsvRow → List PlanWorkoutSession
  | [] => []
  | r :: rest =>
    let pos := (prev.filter (fun p => p.log_date == r.log_date)).length
    let stype := specNormalizeSessionType r.session_type
    { log_date := r.log_date
      plan_session_id := "S" ++ zeroPad2 (pos + 1)
      session_type := stype
      exercises := if stype == "clase" then [] else r.exercises } ::
      reconcileWorkoutAux (prev ++ [r]) rest

/-- Modelled from the spec: entry point of the workout plan reconciler. -/
def reconcileWorkout (rows : List WorkoutCsvRow) : List PlanWorkoutSession :=
  reconcileWorkoutAux [] rows

/-- Canonical diet-plan CSV header, from the spec and from
docs/PLAN_CSV_AI_INSTRUCTIONS_DIET.md. -/
def dietPlanHeaderCanonical : List String :=
  ["log_date", "calories_target_kcal", "protein_target_g", "carbs_target_g",
   "fat_target_g", "breakfast", "snack_1", "lunch", "snack_2", "dinner",
   "notes"]

/-- Modelled from the spec: the diet-plan import header check (app.py is not
under src/). The header must contain the complete canonical, case-sensitive
column set; otherwise the whole import aborts with MalformedFileError before
any row processing. -/
def dietPlanHeaderOk (header : List String) : Bool :=
  dietPlanHeaderCanonical.all (fun c => header.contains c)

/-- Modelled from the spec: whether a diet-plan import with this header
aborts before any row is processed. -/
def dietPlanImportAborts (header : List String) : Bool :=
  !dietPlanHeaderOk header

/-- The header line of the diet-plan CSV uploaded by the e2e test
"planes permite borrar por fecha/sesion y vaciar dieta-entreno completos"
(tests/e2e/tracker.spec.js): its first column is named `date`, not
`log_date`. -/
def e2eDietHeader : List String :=
  ["date", "calories_target_kcal", "protein_target_g", "carbs_target_g",
   "fat_target_g", "breakfast", "snack_1", "lunch", "snack_2", "dinner",
   "notes"]

/-- Whether a character forces CSV quoting, from `csvCell` in
static/tracker.js: the regular expression matches a double quote, a comma
or a newline. -/
def csvSpecialChar (c : Char) : Bool :=
  c == '"' || c == ',' || c == '\n'

/-- Whether `csvCell` quotes the text: `/[",\n]/.test(text)`. -/
def needsQuoting (s : List Char) : Bool :=
  s.any csvSpecialChar

/-- The quote doubling inside `csvCell`: `text.replace(/"/g, "\"\"")`. -/
def escapeQuotes : List Char → List Char
  | [] => []
  | c :: cs =>
    if c = '"' then '"' :: '"' :: escapeQuotes cs else c :: escapeQuotes cs

/-- From `csvCell` in static/tracker.js, over the character list of the
string: if the text contains a double quote, a comma or a newline it is
wrapped in double quotes with interior double quotes doubled, otherwise it
is returned unchanged. -/
def csvCell (s : List Char) : List Char :=
  if needsQuoting s then '"' :: (escapeQuotes s ++ ['"']) else s

/-- Undoubling of quotes, the inverse direction named by claim C10: each
doubled double quote becomes a single one. -/
def unescapeQuotes : List Char → List Char
  | [] => []
  | [c] => [c]
  | c :: d :: cs =>
    if c = '"' ∧ d = '"' then '"' :: unescapeQuotes cs
    else c :: unescapeQuotes (d :: cs)

/-- Whether a produced cell is wrapped in double quotes. -/
def isWrapped (s : List Char) : Bool :=
  decide (2 ≤ s.length ∧ s.head? = some '"' ∧ s.getLast? = some '"')

/-- The decoder named by claim C10: strip the outer quotes of a wrapped
cell and undouble its interior quotes; leave an unwrapped cell unchanged. -/
def decodeCell (s : List Char) : List Char :=
  if isWrapped s then unescapeQuotes (s.drop 1).dropLast else s

/-- Concrete check-in row with no numeric data, used as demo payload. -/
def demoCheckin : CheckinRow :=
  ⟨"2099-02-11", .jnan, .jnan, .jnan, .jnan, .jnan⟩

/-- Concrete preview list with one valid and one conflict row. -/
def c1DemoRows : List PreviewRow :=
  [⟨2, "valid", demoCheckin⟩,
   ⟨1, "conflict", ⟨"2099-02-10", .jnan, .jnan, .jnan, .jnan, .jnan⟩⟩]

/-- Concrete history window: two scored days around one unscored day. -/
def c7DemoWindow : List (Option ℚ) :=
  [some 1, none, some 0]

/-- Concrete check-in row whose waist is JSON null and whose hip is 80. -/
def c9NullWaistRow : CheckinRow :=
  ⟨"2026-01-01", .jnan, .jnan, .jnan, .jnull, .jnum 80⟩

/-- Concrete check-in row with finite waist 76 and hip 95. -/
def c8DemoRow : CheckinRow :=
  ⟨"2026-01-02", .jnan, .jnan, .jnan, .jnum 76, .jnum 95⟩

/-- Concrete check-in row whose hip is a negative number. -/
def c9NegativeHipRow : CheckinRow :=
  ⟨"2026-01-03", .jnan, .jnan, .jnan, .jnum 70, .jnum (-5)⟩

/-- Concrete check-in row whose hip is JSON null. -/
def c9NullHipRow : CheckinRow :=
  ⟨"2026-01-04", .jnan, .jnan, .jnan, .jnum 70, .jnull⟩

/-- Claim C5. Code bug, evaluated on the spec-modelled header check: the
diet-plan import header rule (complete canonical, case-sensitive column set)
rejects the header actually uploaded by the repository e2e test, whose first
column is `date` instead of `log_date`, so per the claim that import must
abort before any row processing; the canonical header itself passes. The
e2e test nevertheless asserts that this upload succeeds and that its rows
are persisted, contradicting the documented rule. -/
theorem dietImport_spec_rejects_e2e_header :
    dietPlanImportAborts e2eDietHeader = true ∧
    dietPlanImportAborts dietPlanHeaderCanonical = false := by
  decide

/-- Claim C4, counterexample: `normalizeSessionType` silently coerces the
unrecognized value `cardio` to the valid type `clase` instead of treating
it as invalid. -/
theorem normalizeSessionType_coerces_unknown :
    normalizeSessionType "cardio" = "clase" ∧
    "cardio" ≠ "clase" ∧ "cardio" ≠ "pesas" := by
  decide

/-- Claim C4, amended: after trimming and lowercasing, `mixta` maps to
`pesas`, `pesas` stays `pesas`, and every other value, `clase` included,
maps to `clase`; the normalizer is total onto the two valid types and
silently coerces unknown values to `clase` rather than rejecting them. -/
theorem normalizeSessionType_total_mapping (v : String) :
    (normalizeSessionType v = "pesas" ∨ normalizeSessionType v = "clase") ∧
    (jsToLower (jsTrim v) = "mixta" → normalizeSessionType v = "pesas") ∧
    (jsToLower (jsTrim v) = "pesas" → normalizeSessionType v = "pesas") ∧
    (jsToLower (jsTrim v) ≠ "mixta" → jsToLower (jsTrim v) ≠ "pesas" →
      normalizeSessionType v = "clase") := by
  unfold normalizeSessionType
  refine ⟨?_, ?_, ?_, ?_⟩
  · by_cases h1 : jsToLower (jsTrim v) = "mixta"
    · left; simp [h1]
    · by_cases h2 : jsToLower (jsTrim v) = "pesas"
      · left; simp [h1, h2]
      · right; simp [h1, h2]
  · intro h; simp [h]
  · intro h; simp [h]
  · intro h1 h2; simp [h1, h2]

theorem normalizeSessionType_total_mapping_witness :
    normalizeSessionType "mixta" = "pesas" ∧
    normalizeSessionType "CARDIO " = "clase" := by
  refine ⟨(normalizeSessionType_total_mapping "mixta").2.1 (by decide),
    (normalizeSessionType_total_mapping "CARDIO ").2.2.2 (by decide) (by decide)⟩

/-- Claim C6. The label produced by the source function
`planPillFromAdherenceScore` agrees, for every score value and has-plan
flag, with the label demanded by the claim: "Sin plan" whenever no plan
exists regardless of the score, otherwise "Cumplida" within 0.001 of 1,
"Parcial" within 0.001 of 0.5, "No cumplida" within 0.001 of 0, and
"Pendiente" for a null score or one matching none of the three. -/
theorem planPill_label_matches_claim (scoreValue : Option ℚ) (hasPlan : Bool) :
    (planPillFromAdherenceScore scoreValue hasPlan).label =
      planPillLabelClaim scoreValue hasPlan := by
  cases hasPlan <;> cases scoreValue <;>
    simp [planPillFromAdherenceScore, planPillLabelClaim, scoreMatches]
  split_ifs <;> rfl

/-- Claim C3. The KPI delta renderer shows the muted "no prior comparison"
state exactly for a null or non-numeric delta, and shows the equal "no
relevant change" state for a numeric delta of zero (every call site passes
a nonnegative stability epsilon); the two states are therefore never
conflated, and a missing baseline (null delta) is never displayed as a zero
change. -/
theorem kpiDelta_null_vs_zero (delta : Option ℚ) (preferLower : Bool)
    (stableEps : ℚ) (heps : 0 ≤ stableEps) :
    (drawKpiDelta delta preferLower stableEps = KpiDeltaState.muted ↔
      delta = none) ∧
    drawKpiDelta (some 0) preferLower stableEps = KpiDeltaState.equal := by
  constructor
  · constructor
    · intro hmut
      cases delta with
      | none => rfl
      | some v =>
        exfalso
        by_cases h1 : |v| ≤ stableEps
        · simp [drawKpiDelta, h1] at hmut
        · by_cases h2 : (0 : ℚ) < v <;> cases preferLower <;>
            simp [drawKpiDelta, h1, h2] at hmut
    · intro h
      subst h
      rfl
  · simp [drawKpiDelta, abs_of_nonneg, heps]

theorem kpiDelta_null_vs_zero_witness :
    (drawKpiDelta none true (1 / 10) = KpiDeltaState.muted ↔
      (none : Option ℚ) = none) ∧
    drawKpiDelta (some 0) true (1 / 10) = KpiDeltaState.equal :=
  kpiDelta_null_vs_zero none true (1 / 10) (by norm_num)

/-- Claim C8. For every check-in row whose waist and hip fields hold finite
numbers with hip greater than zero, the rendered WHR is exactly
waist divided by hip, computed from those two row fields at render time;
the row carries no stored WHR field the renderer could read instead, and
the result is fully determined by the two measurements. -/
theorem computeWHR_from_fields (r : CheckinRow) (w h : ℚ)
    (hw : r.waist_cm = .jnum w) (hh : r.hip_cm = .jnum h) (hpos : 0 < h) :
    computeWHR r = some (w / h) := by
  simp [computeWHR, hw, hh, jsNumber, not_le.mpr hpos]

theorem computeWHR_from_fields_witness :
    computeWHR c8DemoRow = some (76 / 95) :=
  computeWHR_from_fields c8DemoRow 76 95 rfl rfl (by norm_num)

/-- Claim C9, counterexample: for the row whose `waist_cm` is JSON null and
whose `hip_cm` is 80, JavaScript `Number(null)` is 0, so `computeWHR`
renders 0 / 80 = 0 (displayed as 0.000) instead of the placeholder dash the
claim requires for a missing waist value. -/
theorem computeWHR_null_waist_counterexample :
    computeWHR c9NullWaistRow = some 0 ∧ computeWHR c9NullWaistRow ≠ none := by
  have h0 : computeWHR c9NullWaistRow = some 0 := by
    norm_num [computeWHR, c9NullWaistRow, jsNumber]
  refine ⟨h0, ?_⟩
  rw [h0]
  exact Option.some_ne_none 0

/-- Claim C9, amended: `computeWHR` is total and division-safe. Every input
yields either the placeholder or the ratio of two finite values with a
positive hip, so division by zero or by a negative hip is unreachable; a
non-finite waist or hip, a null hip (coerced to 0), or a non-positive
numeric hip all yield the placeholder without dividing. However a null
`waist_cm` is coerced to 0 rather than rejected: with a positive hip it
renders as WHR 0, not as the placeholder. -/
theorem computeWHR_total_division_safe (r : CheckinRow) :
    (computeWHR r = none ∨
      ∃ w h, jsNumber r.waist_cm = some w ∧ jsNumber r.hip_cm = some h ∧
        0 < h ∧ computeWHR r = some (w / h)) ∧
    (r.waist_cm = .jnan → computeWHR r = none) ∧
    (r.hip_cm = .jnan → computeWHR r = none) ∧
    (r.hip_cm = .jnull → computeWHR r = none) ∧
    (∀ h : ℚ, r.hip_cm = .jnum h → h ≤ 0 → computeWHR r = none) := by
  refine ⟨?_, ?_, ?_, ?_, ?_⟩
  · cases hW : jsNumber r.waist_cm with
    | none =>
      left
      cases hH : jsNumber r.hip_cm <;> simp [computeWHR, hW, hH]
    | some w =>
      cases hH : jsNumber r.hip_cm with
      | none => left; simp [computeWHR, hW, hH]
      | some h =>
        rcases le_or_lt h 0 with hle | hlt
        · left; simp [computeWHR, hW, hH, hle]
        · right
          refine ⟨w, h, rfl, rfl, hlt, ?_⟩
          simp [computeWHR, hW, hH, not_le.mpr hlt]
  · intro hw0
    have hW : jsNumber r.waist_cm = none := by rw [hw0]; rfl
    cases hH : jsNumber r.hip_cm <;> simp [computeWHR, hW, hH]
  · intro hh0
    have hH : jsNumber r.hip_cm = none := by rw [hh0]; rfl
    cases hW : jsNumber r.waist_cm <;> simp [computeWHR, hW, hH]
  · intro hh0
    have hH : jsNumber r.hip_cm = some 0 := by rw [hh0]; rfl
    cases hW : jsNumber r.waist_cm <;> simp [computeWHR, hW, hH]
  · intro h hh0 hle
    have hH : jsNumber r.hip_cm = some h := by rw [hh0]; rfl
    cases hW : jsNumber r.waist_cm <;> simp [computeWHR, hW, hH, hle]

theorem computeWHR_total_division_safe_witness :
    computeWHR c9NegativeHipRow = none ∧ computeWHR c9NullHipRow = none :=
  ⟨(computeWHR_total_division_safe c9NegativeHipRow).2.2.2.2 (-5) rfl (by norm_num),
   (computeWHR_total_division_safe c9NullHipRow).2.2.2.1 rfl⟩

theorem specNormalizeSessionType_pesas :
    specNormalizeSessionType "pesas" = "pesas" := by decide

theorem specNormalizeSessionType_clase :
    specNormalizeSessionType "clase" = "clase" := by decide

/-- Claim C2. For a workout-plan CSV holding two rows with the same date,
the first of type `pesas` and the second of type `clase`, the reconciler
produces exactly two sessions for that date, `S01` for the pesas row and
`S02` for the clase row, the ordinals coming purely from row order within
the date, and the clase session is persisted with an empty exercise list
even when its CSV row carried exercise data. -/
theorem workout_import_two_rows_same_date (d : String) (e1 e2 : List String) :
    reconcileWorkout [⟨d, "pesas", e1⟩, ⟨d, "clase", e2⟩] =
      [⟨d, "S01", "pesas", e1⟩, ⟨d, "S02", "clase", []⟩] := by
  have h1 : "S" ++ zeroPad2 1 = "S01" := by decide
  have h2 : "S" ++ zeroPad2 2 = "S02" := by decide
  have hb1 : (("pesas" : String) == "clase") = false := by decide
  have hb2 : (("clase" : String) == "clase") = true := by decide
  simp [reconcileWorkout, reconcileWorkoutAux, specNormalizeSessionType_pesas,
    specNormalizeSessionType_clase, h1, h2, hb1, hb2]

theorem historyItems_map_some (l : List ℚ) :
    historyItems (l.map some) = l := by
  simp [historyItems]

/-- Claim C7. The adherence history mean reported by the UI is the
arithmetic mean of the scored days only: dropping the unscored days from
the window does not change it, a window with no scored day reports the mean
as unavailable, a window with at least one scored day reports exactly the
sum of the scored totals divided by their count, and the reported calendar
length of the window does not depend on which days are scored. -/
theorem adherence_history_mean_scored_only (window : List (Option ℚ)) :
    renderPeriodAvg window = renderPeriodAvg ((historyItems window).map some)
    ∧ ((∀ o ∈ window, o = none) → renderPeriodAvg window = none)
    ∧ (historyItems window ≠ [] →
        renderPeriodAvg window =
          some ((historyItems window).sum / ((historyItems window).length : ℚ)))
    ∧ historyTotalDays window =
        historyTotalDays (window.map (fun _ => (none : Option ℚ))) := by
  refine ⟨?_, ?_, ?_, ?_⟩
  · unfold renderPeriodAvg
    rw [historyItems_map_some]
  · intro hall
    have hnil : historyItems window = [] := by
      simp [historyItems, List.filterMap_eq_nil_iff]
      intro o ho
      simp [hall o ho]
    simp [renderPeriodAvg, hnil, periodAvgOfItems]
  · intro hne
    have hfalse : (historyItems window).isEmpty = false := by
      simp [List.isEmpty_iff, hne]
    simp [renderPeriodAvg, periodAvgOfItems, hfalse]
  · simp [historyTotalDays]

theorem adherence_history_mean_scored_only_witness :
    renderPeriodAvg c7DemoWindow =
      some ((historyItems c7DemoWindow).sum /
        ((historyItems c7DemoWindow).length : ℚ)) :=
  (adherence_history_mean_scored_only c7DemoWindow).2.2.1 (by decide)

/-- Claim C1. When every previewed row carries one of the canonical
lowercase statuses, the apply action of the check-in import is enabled
exactly when at least one previewed row has status `valid`, and the payload
posted to the apply endpoint is exactly the projection of the previewed
rows whose status is `valid`; conflict and invalid rows are filtered out
before persistence is invoked. -/
theorem checkin_import_apply_only_valid_rows (rows : List PreviewRow)
    (hcanon : ∀ r ∈ rows,
      r.status ∈ (["valid", "imported", "conflict", "invalid", "warning"] :
        List String)) :
    (importApplyDisabled rows = false ↔ ∃ r ∈ rows, r.status = "valid")
    ∧ applyDietImportPayload rows
        = (rows.filter (fun r => r.status == "valid")).map
            (fun r => (r.row_number, r.row)) := by
  have hlow : ∀ r ∈ rows,
      (jsToLower r.status == "valid") = (r.status == "valid") := by
    intro r hr
    have h := hcanon r hr
    simp only [List.mem_cons, List.not_mem_nil, or_false] at h
    rcases h with h | h | h | h | h <;> rw [h] <;> decide
  have hfilter : rows.filter (fun r => jsToLower r.status == "valid")
      = rows.filter (fun r => r.status == "valid") :=
    List.filter_congr hlow
  constructor
  · simp only [importApplyDisabled, importValidCount, hfilter,
      beq_eq_false_iff_ne, ne_eq, List.length_eq_zero, List.filter_eq_nil_iff,
      not_forall, beq_iff_eq, not_not, exists_prop]
  · unfold applyDietImportPayload
    rw [hfilter]

theorem checkin_import_apply_only_valid_rows_witness :
    (importApplyDisabled c1DemoRows = false ↔
      ∃ r ∈ c1DemoRows, r.status = "valid")
    ∧ applyDietImportPayload c1DemoRows
        = (c1DemoRows.filter (fun r => r.status == "valid")).map
            (fun r => (r.row_number, r.row)) :=
  checkin_import_apply_only_valid_rows c1DemoRows (by decide)

theorem escapeQuotes_eq_nil {s : List Char} (h : escapeQuotes s = []) :
    s = [] := by
  cases s with
  | nil => rfl
  | cons c cs => by_cases hc : c = '"' <;> simp [escapeQuotes, hc] at h

theorem unescape_escape (s : List Char) :
    unescapeQuotes (escapeQuotes s) = s := by
  induction s with
  | nil => rfl
  | cons c cs ih =>
    by_cases hc : c = '"'
    · subst hc
      simp [escapeQuotes, unescapeQuotes, ih]
    · rw [show escapeQuotes (c :: cs) = c :: escapeQuotes cs by
        simp [escapeQuotes, hc]]
      cases hcs : escapeQuotes cs with
      | nil =>
        rw [escapeQuotes_eq_nil hcs]
        rfl
      | cons d ds =>
        rw [show unescapeQuotes (c :: d :: ds) = c :: unescapeQuotes (d :: ds) by
          simp [unescapeQuotes, hc]]
        rw [← hcs, ih]

theorem isWrapped_quoted (l : List Char) :
    isWrapped ('"' :: (l ++ ['"'])) = true := by
  have hlast : ('"' :: (l ++ ['"'])).getLast? = some '"' := by
    rw [← List.cons_append]
    exact List.getLast?_concat _
  simp only [isWrapped, decide_eq_true_eq, List.head?_cons, List.length_cons,
    List.length_append, List.length_singleton]
  exact ⟨by omega, by simp, hlast⟩

theorem isWrapped_unquoted {s : List Char} (h : needsQuoting s = false) :
    isWrapped s = false := by
  cases s with
  | nil => rfl
  | cons c cs =>
    have hc : c ≠ '"' := by
      intro hcq
      subst hcq
      simp [needsQuoting, csvSpecialChar] at h
    simp only [isWrapped, decide_eq_false_iff_not]
    rintro ⟨-, hhead, -⟩
    simp at hhead
    exact hc hhead

/-- Claim C10. `csvCell` is an RFC 4180 style field encoder: the produced
cell is wrapped in double quotes, with every interior quote doubled,
exactly when the input contains a double quote, a comma or a newline, and
is the input unchanged otherwise; stripping the outer quotes of a wrapped
cell and undoubling its quotes recovers the original text, so decoding the
produced cell yields the original string for every input. -/
theorem csvCell_rfc4180 (s : List Char) :
    decodeCell (csvCell s) = s
    ∧ isWrapped (csvCell s) = needsQuoting s
    ∧ (needsQuoting s = false → csvCell s = s) := by
  by_cases hq : needsQuoting s = true
  · have hcell : csvCell s = '"' :: (escapeQuotes s ++ ['"']) := by
      simp [csvCell, hq]
    have hw : isWrapped (csvCell s) = true := by
      rw [hcell]; exact isWrapped_quoted _
    refine ⟨?_, ?_, ?_⟩
    · simp only [decodeCell, hw, if_true]
      rw [hcell]
      rw [show (('"' :: (escapeQuotes s ++ ['"'])).drop 1) = escapeQuotes s ++ ['"']
        from rfl]
      rw [show (escapeQuotes s ++ ['"']).dropLast = escapeQuotes s by simp]
      exact unescape_escape s
    · rw [hw, hq]
    · intro h
      simp [h] at hq
  · have hq' : needsQuoting s = false := by simpa using hq
    have hcell : csvCell s = s := by simp [csvCell, hq']
    have hw' : isWrapped s = false := isWrapped_unquoted hq'
    refine ⟨?_, ?_, ?_⟩
    · simp [decodeCell, hcell, hw']
    · rw [hcell, hw', hq']
    · intro _
      exact hcell

theorem csvCell_rfc4180_witness :
    (needsQuoting ([] : List Char) = false → csvCell ([] : List Char) = []) ∧
    decodeCell (csvCell ('a' :: ',' :: 'b' :: [])) = 'a' :: ',' :: 'b' :: [] :=
  ⟨(csvCell_rfc4180 []).2.2, (csvCell_rfc4180 ('a' :: ',' :: 'b' :: [])).1⟩
